import Mathlib

/-!
Shallow embedding of `src/robot-simulator.js` (classes `InvalidInputError` and
`Robot`) together with the validation helpers from `./utils`
(`validateNumber`, `validateString`, `validateObject`).

JavaScript values that flow through the API are modelled by `JSVal`
(numbers — taken as integers, the lattice the spec describes — plus `NaN`,
strings, and `undefined`).  Thrown errors are modelled by `Err`:
`invalidInput` for `InvalidInputError`, `genericError` for a plain
`new Error(...)`, and `typeError` for the runtime `TypeError` raised when a
non-function (e.g. `this[undefined]`) is called or a property of `undefined`
is read.  Each mutating method becomes a function
`RobotState → Option Err × RobotState`: the first component is the thrown
error (`none` = normal return) and the second the state of the object after
the call — in JavaScript a throw does not roll back mutations already
performed, so the state at throw time is kept.
-/

/-- A JavaScript value appearing at the robot API boundary. -/
inductive JSVal where
  | num (n : Int)
  | nan
  | str (s : String)
  | undefined
  deriving DecidableEq, Repr

/-- Errors thrown by the source: `InvalidInputError`, plain `Error`, `TypeError`. -/
inductive Err where
  | invalidInput (msg : String)
  | genericError (msg : String)
  | typeError (msg : String)
  deriving DecidableEq, Repr

/-- Whether an error is of the `InvalidInputError` kind. -/
def Err.isInvalidInput : Err → Bool
  | .invalidInput _ => true
  | _ => false

/-- `utils.validateNumber`: `typeof num === 'number' && !Number.isNaN(Number(num))`.
True exactly on genuine numbers (`NaN` has number type but is rejected). -/
def validateNumber : JSVal → Bool
  | .num _ => true
  | _ => false

/-- `utils.validateString`: `typeof str === 'string'` (any length, empty included). -/
def validateString : JSVal → Bool
  | .str _ => true
  | _ => false

/-- The argument of `Robot.place`: either a plain key–value record
(`validateObject` true) or any other value (`validateObject` false). -/
inductive PlaceArg where
  | obj (entries : List (String × JSVal))
  | nonObj
  deriving DecidableEq, Repr

/-- Destructuring a field out of a record: a missing key gives `undefined`. -/
def fieldOf (entries : List (String × JSVal)) (k : String) : JSVal :=
  match entries.lookup k with
  | some v => v
  | none => .undefined

/-- The instance state of a `Robot`: `this.orientation` and `this.coords`,
both `undefined` (`none`) after the constructor. -/
structure RobotState where
  orientation : Option String
  coords : Option (Int × Int)
  deriving DecidableEq, Repr

namespace Robot

/-- `Robot.directions = ['north', 'east', 'south', 'west']`. -/
def directions : List String := ["north", "east", "south", "west"]

/-- `Array.prototype.indexOf` starting from index `i`: `-1` when absent. -/
def jsIndexOfAux (d : String) : List String → Int → Int
  | [], _ => -1
  | x :: xs, i => if x = d then i else jsIndexOfAux d xs (i + 1)

/-- `Robot.directions.indexOf(bearing)`: an unset (`undefined`) bearing is in
no string array, so the lookup yields `-1`. -/
def jsIndexOf (l : List String) (v : Option String) : Int :=
  match v with
  | none => -1
  | some d => jsIndexOfAux d l 0

/-- `Robot.prototype.orient`: reject (leaving state untouched) unless the
argument is one of the four direction strings, else store it. -/
def orient (s : RobotState) (v : JSVal) : Option Err × RobotState :=
  match v with
  | .str d =>
    if directions.contains d then (none, { s with orientation := some d })
    else (some (.invalidInput "Must enter a valid orientation"), s)
  | _ => (some (.invalidInput "Must enter a valid orientation"), s)

/-- `get bearing()`: returns `this.orientation`. -/
def bearing (s : RobotState) : Option String := s.orientation

/-- `get coordinates()`: returns `this.coords`. -/
def coordinates (s : RobotState) : Option (Int × Int) := s.coords

/-- `Robot.prototype.#turn`: validate the turn direction string, map
`'right'` to `+1` and anything else to `+3`, index the current bearing in
the direction table (`-1` when unset), and re-orient to
`directions[(index + step) % 4]`. -/
def turn (s : RobotState) (turnDirection : JSVal) : Option Err × RobotState :=
  if validateString turnDirection then
    let direction : Int := if turnDirection = .str "right" then 1 else 3
    let currentDirectionIndex : Int := jsIndexOf directions (bearing s)
    let newOrientation : Option String :=
      directions[((currentDirectionIndex + direction).emod (directions.length : Int)).toNat]?
    match newOrientation with
    | some d => orient s (.str d)
    | none => orient s .undefined
  else (some (.invalidInput "Must enter a valid turn direction"), s)

/-- `Robot.prototype.turnRight`: `this.#turn('right')`. -/
def turnRight (s : RobotState) : Option Err × RobotState :=
  turn s (.str "right")

/-- `Robot.prototype.turnLeft`: `this.#turn('left')`. -/
def turnLeft (s : RobotState) : Option Err × RobotState :=
  turn s (.str "left")

/-- `Robot.prototype.at` (named `atCoords` here, `at` being reserved in Lean):
validate both coordinates, then `this.coords = [x, y]`. -/
def atCoords (s : RobotState) (x y : JSVal) : Option Err × RobotState :=
  if !validateNumber x || !validateNumber y then
    (some (.invalidInput "Must enter valid coordinates"), s)
  else
    match x, y with
    | .num a, .num b => (none, { s with coords := some (a, b) })
    | _, _ => (some (.invalidInput "Must enter valid coordinates"), s)

/-- `Robot.prototype.advance`: switch on `this.orientation`; the four named
cases increment/decrement a coordinate (a `TypeError` if `this.coords` is
still `undefined`); the `default` branch returns `this.coords` untouched. -/
def advance (s : RobotState) : Option Err × RobotState :=
  match s.orientation with
  | some "north" =>
    match s.coords with
    | some (x, y) => (none, { s with coords := some (x, y + 1) })
    | none => (some (.typeError "Cannot read properties of undefined"), s)
  | some "east" =>
    match s.coords with
    | some (x, y) => (none, { s with coords := some (x + 1, y) })
    | none => (some (.typeError "Cannot read properties of undefined"), s)
  | some "south" =>
    match s.coords with
    | some (x, y) => (none, { s with coords := some (x, y - 1) })
    | none => (some (.typeError "Cannot read properties of undefined"), s)
  | some "west" =>
    match s.coords with
    | some (x, y) => (none, { s with coords := some (x - 1, y) })
    | none => (some (.typeError "Cannot read properties of undefined"), s)
  | _ => (none, s)

/-- `Robot.commands = { A: 'advance', L: 'turnLeft', R: 'turnRight' }`;
object lookup at any other key gives `undefined` (`none`). -/
def commands (c : Char) : Option String :=
  if c = 'A' then some "advance"
  else if c = 'L' then some "turnLeft"
  else if c = 'R' then some "turnRight"
  else none

/-- `String.prototype.toUpperCase`, per character (ASCII range, which covers
every command character). -/
def jsToUpper (c : Char) : Char :=
  if 'a' ≤ c ∧ c ≤ 'z' then Char.ofNat (c.toNat - 32) else c

/-- `/^[ARL]+$/.test(s.toUpperCase())`: non-empty and every uppercased
character is `A`, `R` or `L`. -/
def testARL (s : String) : Bool :=
  let u := s.toList.map jsToUpper
  !u.isEmpty && u.all fun c => c = 'A' || c = 'R' || c = 'L'

/-- The message of `Robot.instructions`' `InvalidInputError`. -/
def instrErrMsg : String :=
  "Must enter a valid instruction command string. Allowed characters are \"L\", \"R\" and \"A\""

/-- `static Robot.instructions`: validate the whole string (string type plus
the case-insensitive regex), then map each ORIGINAL character through
`Robot.commands` — so a lowercase character passes validation yet maps to
`undefined`. -/
def instructions (v : JSVal) : Except Err (List (Option String)) :=
  match v with
  | .str s =>
    if testARL s then .ok (s.toList.map commands)
    else .error (.invalidInput instrErrMsg)
  | _ => .error (.invalidInput instrErrMsg)

/-- `Robot.prototype.place`: reject non-records and empty records with a
plain `Error`, then `this.at(x, y)` followed by `this.orient(direction)` —
`at` mutates `this.coords` before `orient` runs its validation. -/
def place (s : RobotState) (arg : PlaceArg) : Option Err × RobotState :=
  match arg with
  | .nonObj => (some (.genericError "Invalid placement data type"), s)
  | .obj entries =>
    if entries.length = 0 then
      (some (.genericError "Placement data must not be empty"), s)
    else
      let r := atCoords s (fieldOf entries "x") (fieldOf entries "y")
      match r.1 with
      | some e => (some e, r.2)
      | none => orient r.2 (fieldOf entries "direction")

/-- One step of `evaluate`'s `forEach` body `this[instruction]()`:
dispatch on the command name; calling `this[undefined]` (or any key that is
not a method) throws a `TypeError`. -/
def runCmd (s : RobotState) (cmd : Option String) : Option Err × RobotState :=
  match cmd with
  | some "advance" => advance s
  | some "turnLeft" => turnLeft s
  | some "turnRight" => turnRight s
  | _ => (some (.typeError "is not a function"), s)

/-- `forEach` over the decoded command list: an exception thrown by a step
aborts the iteration, keeping the mutations already made. -/
def runCmds : RobotState → List (Option String) → Option Err × RobotState
  | s, [] => (none, s)
  | s, c :: cs =>
    let r := runCmd s c
    match r.1 with
    | some e => (some e, r.2)
    | none => runCmds r.2 cs

/-- `Robot.prototype.evaluate`: decode via `Robot.instructions` (errors
propagate with no state change), then execute each command in order. -/
def evaluate (s : RobotState) (v : JSVal) : Option Err × RobotState :=
  match instructions v with
  | .error e => (some e, s)
  | .ok cmds => runCmds s cmds

end Robot

/-- The orientation field holds one of the four direction names. -/
def orientedValid (s : RobotState) : Bool :=
  match s.orientation with
  | some d => Robot.directions.contains d
  | none => false

/-- `none` or an `InvalidInputError`: no error of another kind. -/
def allInvalidInput : Option Err → Bool
  | none => true
  | some e => e.isInvalidInput

/-- Decoding either fails with an `InvalidInputError` or succeeds. -/
def exceptInvalid : Except Err (List (Option String)) → Bool
  | .error e => e.isInvalidInput
  | .ok _ => true

/-- `orient` never touches `this.coords`. -/
lemma orient_coords (s : RobotState) (v : JSVal) : (Robot.orient s v).2.coords = s.coords := by
  cases v <;> unfold Robot.orient <;> try rfl
  dsimp only
  split <;> rfl

/-- `#turn` never touches `this.coords` (it only delegates to `orient`). -/
lemma turn_coords (s : RobotState) (v : JSVal) : (Robot.turn s v).2.coords = s.coords := by
  unfold Robot.turn
  split
  · split <;> (dsimp only; split <;> apply orient_coords)
  · rfl

/-- C1 counterexample: starting from a validly placed robot, `place` with
numeric coordinates and the unrecognized direction `"foo"` raises
`InvalidInput` but leaves the position mutated to the new coordinates —
the stored position is NOT "exactly as it was before the call". -/
theorem C1_counterexample :
    Robot.place ⟨some "north", some (0, 0)⟩
        (.obj [("x", .num 1), ("y", .num 2), ("direction", .str "foo")]) =
      (some (.invalidInput "Must enter a valid orientation"), ⟨some "north", some (1, 2)⟩) ∧
    (⟨some "north", some (1, 2)⟩ : RobotState).coords ≠
      (⟨some "north", some (0, 0)⟩ : RobotState).coords := by
  decide

/-- C1 amended: `place` with valid numeric coordinates and an unrecognized
direction raises `InvalidInput` and leaves the orientation unchanged, but
the stored position has already been set to the new coordinates (`at` runs
before `orient`'s validation, so the failure is not atomic). -/
theorem C1_place_partial (s : RobotState) (x y : Int) (d : String)
    (hd : d ∉ Robot.directions) :
    Robot.place s (.obj [("x", .num x), ("y", .num y), ("direction", .str d)]) =
      (some (.invalidInput "Must enter a valid orientation"), { s with coords := some (x, y) }) := by
  simp [Robot.place, Robot.atCoords, Robot.orient, fieldOf, validateNumber, List.lookup, hd]

theorem C1_place_partial_witness :
    "foo" ∉ Robot.directions ∧
    Robot.place ⟨some "east", some (3, 4)⟩
        (.obj [("x", .num 1), ("y", .num 2), ("direction", .str "foo")]) =
      (some (.invalidInput "Must enter a valid orientation"), ⟨some "east", some (1, 2)⟩) :=
  ⟨by decide, C1_place_partial ⟨some "east", some (3, 4)⟩ 1 2 "foo" (by decide)⟩

/-- C2: on `"laar"` decoding succeeds with one entry per character, but the
map uses the original lowercase characters, which are not keys of
`Robot.commands` — every entry is `undefined`, not an instruction; on
`"LAAR"` the decoder yields the intended command per character. -/
theorem C2_lowercase_maps_to_undefined :
    Robot.instructions (.str "laar") = .ok [none, none, none, none] ∧
    Robot.instructions (.str "LAAR") =
      .ok [some "turnLeft", some "advance", some "advance", some "turnRight"] :=
  ⟨rfl, rfl⟩

/-- C3: on `"Al"` decoding succeeds, the first instruction (`advance`)
executes and mutates the position, then dispatch on the `undefined` entry
throws a `TypeError` — execution stops partway through a decoded sequence;
on `"AX"` decoding fails and the state is unchanged. -/
theorem C3_partial_execution :
    Robot.evaluate ⟨some "north", some (0, 0)⟩ (.str "Al") =
      (some (.typeError "is not a function"), ⟨some "north", some (0, 1)⟩) ∧
    Robot.evaluate ⟨some "north", some (0, 0)⟩ (.str "AX") =
      (some (.invalidInput Robot.instrErrMsg), ⟨some "north", some (0, 0)⟩) :=
  ⟨rfl, rfl⟩

/-- C9: `advance` on a robot whose orientation is unset hits the `default`
branch of the switch: no error is thrown and the whole state — in
particular the stored coordinates — is unchanged. -/
theorem C9_advance_unset (s : RobotState) (h : s.orientation = none) :
    Robot.advance s = (none, s) := by
  obtain ⟨o, c⟩ := s
  cases h
  rfl

theorem C9_advance_unset_witness :
    (⟨none, some (5, 7)⟩ : RobotState).orientation = none ∧
    Robot.advance ⟨none, some (5, 7)⟩ = (none, ⟨none, some (5, 7)⟩) :=
  ⟨rfl, C9_advance_unset ⟨none, some (5, 7)⟩ rfl⟩

/-- C10: with an unset bearing, `indexOf` yields `-1`, so `turnRight`
computes index `(-1+1) % 4 = 0` and assigns `north`, while `turnLeft`
computes `(-1+3) % 4 = 2` and assigns `south`, neither raising an error. -/
theorem C10_turn_unset (s : RobotState) (h : s.orientation = none) :
    Robot.jsIndexOf Robot.directions none = -1 ∧
    Robot.turnRight s = (none, { s with orientation := some "north" }) ∧
    Robot.turnLeft s = (none, { s with orientation := some "south" }) := by
  obtain ⟨o, c⟩ := s
  cases h
  exact ⟨rfl, rfl, rfl⟩

theorem C10_turn_unset_witness :
    (⟨none, some (2, 3)⟩ : RobotState).orientation = none ∧
    Robot.jsIndexOf Robot.directions none = -1 ∧
    Robot.turnRight ⟨none, some (2, 3)⟩ = (none, ⟨some "north", some (2, 3)⟩) ∧
    Robot.turnLeft ⟨none, some (2, 3)⟩ = (none, ⟨some "south", some (2, 3)⟩) :=
  ⟨rfl, C10_turn_unset ⟨none, some (2, 3)⟩ rfl⟩

/-- C5: with the orientation set to one of the four names and the position
set to `(x, y)`, `advance` raises no error, keeps the orientation, and moves
exactly one unit: north to `(x, y+1)`, east to `(x+1, y)`, south to
`(x, y-1)`, west to `(x-1, y)`. -/
theorem C5_advance_one_unit (s : RobotState) (x y : Int) (d : String)
    (hd : d ∈ Robot.directions) (ho : s.orientation = some d) (hc : s.coords = some (x, y)) :
    (Robot.advance s).1 = none ∧
    (Robot.advance s).2.orientation = some d ∧
    (Robot.advance s).2.coords = some
      (if d = "north" then (x, y + 1)
       else if d = "east" then (x + 1, y)
       else if d = "south" then (x, y - 1)
       else (x - 1, y)) := by
  obtain ⟨o, c⟩ := s
  obtain rfl : o = some d := ho
  obtain rfl : c = some (x, y) := hc
  fin_cases hd <;> exact ⟨rfl, rfl, rfl⟩

theorem C5_advance_one_unit_witness :
    "east" ∈ Robot.directions ∧
    (Robot.advance ⟨some "east", some (2, 5)⟩).1 = none ∧
    (Robot.advance ⟨some "east", some (2, 5)⟩).2.orientation = some "east" ∧
    (Robot.advance ⟨some "east", some (2, 5)⟩).2.coords = some
      (if "east" = "north" then ((2 : Int), (5 : Int) + 1)
       else if "east" = "east" then (2 + 1, 5)
       else if "east" = "south" then (2, 5 - 1)
       else (2 - 1, 5)) :=
  ⟨by decide, C5_advance_one_unit ⟨some "east", some (2, 5)⟩ 2 5 "east" (by decide) rfl rfl⟩

/-- One `turnRight` step from each of the four orientations. -/
lemma turnRight_north (c : Option (Int × Int)) :
    Robot.turnRight ⟨some "north", c⟩ = (none, ⟨some "east", c⟩) := rfl

lemma turnRight_east (c : Option (Int × Int)) :
    Robot.turnRight ⟨some "east", c⟩ = (none, ⟨some "south", c⟩) := rfl

lemma turnRight_south (c : Option (Int × Int)) :
    Robot.turnRight ⟨some "south", c⟩ = (none, ⟨some "west", c⟩) := rfl

lemma turnRight_west (c : Option (Int × Int)) :
    Robot.turnRight ⟨some "west", c⟩ = (none, ⟨some "north", c⟩) := rfl

/-- One `turnLeft` step from each of the four orientations. -/
lemma turnLeft_north (c : Option (Int × Int)) :
    Robot.turnLeft ⟨some "north", c⟩ = (none, ⟨some "west", c⟩) := rfl

lemma turnLeft_east (c : Option (Int × Int)) :
    Robot.turnLeft ⟨some "east", c⟩ = (none, ⟨some "north", c⟩) := rfl

lemma turnLeft_south (c : Option (Int × Int)) :
    Robot.turnLeft ⟨some "south", c⟩ = (none, ⟨some "east", c⟩) := rfl

lemma turnLeft_west (c : Option (Int × Int)) :
    Robot.turnLeft ⟨some "west", c⟩ = (none, ⟨some "south", c⟩) := rfl

/-- C6: from any of the four orientations, `turnRight` then `turnLeft` (and
the reverse) restores the whole state, four `turnRight`s (likewise four
`turnLeft`s) restore the whole state, and every intermediate state keeps the
original coordinates. -/
theorem C6_turn_cycles (s : RobotState) (d : String)
    (hd : d ∈ Robot.directions) (ho : s.orientation = some d) :
    (Robot.turnLeft (Robot.turnRight s).2).2 = s ∧
    (Robot.turnRight (Robot.turnLeft s).2).2 = s ∧
    (Robot.turnRight (Robot.turnRight (Robot.turnRight (Robot.turnRight s).2).2).2).2 = s ∧
    (Robot.turnLeft (Robot.turnLeft (Robot.turnLeft (Robot.turnLeft s).2).2).2).2 = s ∧
    (Robot.turnRight s).2.coords = s.coords ∧
    (Robot.turnRight (Robot.turnRight s).2).2.coords = s.coords ∧
    (Robot.turnRight (Robot.turnRight (Robot.turnRight s).2).2).2.coords = s.coords ∧
    (Robot.turnLeft s).2.coords = s.coords ∧
    (Robot.turnLeft (Robot.turnLeft s).2).2.coords = s.coords ∧
    (Robot.turnLeft (Robot.turnLeft (Robot.turnLeft s).2).2).2.coords = s.coords := by
  obtain ⟨o, c⟩ := s
  obtain rfl : o = some d := ho
  fin_cases hd <;>
    simp [turnRight_north, turnRight_east, turnRight_south, turnRight_west,
      turnLeft_north, turnLeft_east, turnLeft_south, turnLeft_west]

theorem C6_turn_cycles_witness :
    "west" ∈ Robot.directions ∧
    (Robot.turnLeft (Robot.turnRight ⟨some "west", some (1, 1)⟩).2).2 =
      ⟨some "west", some (1, 1)⟩ ∧
    (Robot.turnRight (Robot.turnLeft ⟨some "west", some (1, 1)⟩).2).2 =
      ⟨some "west", some (1, 1)⟩ :=
  ⟨by decide,
    (C6_turn_cycles ⟨some "west", some (1, 1)⟩ "west" (by decide) rfl).1,
    (C6_turn_cycles ⟨some "west", some (1, 1)⟩ "west" (by decide) rfl).2.1⟩

/-- C7: `decode` (`Robot.instructions`) rejects every non-string input,
the empty string, and any string containing a character outside `A`, `L`,
`R` up to case (in particular `"XYZ"` and `""`), raising `InvalidInput` and
returning no instruction sequence. -/
theorem C7_decode_rejects (v : JSVal) (s : String) (c : Char)
    (hv : ∀ t, v ≠ .str t) (hc : c ∈ s.toList)
    (hbad : ¬(Robot.jsToUpper c = 'A' ∨ Robot.jsToUpper c = 'R' ∨ Robot.jsToUpper c = 'L')) :
    Robot.instructions v = .error (.invalidInput Robot.instrErrMsg) ∧
    Robot.instructions (.str "") = .error (.invalidInput Robot.instrErrMsg) ∧
    Robot.instructions (.str "XYZ") = .error (.invalidInput Robot.instrErrMsg) ∧
    Robot.instructions (.str s) = .error (.invalidInput Robot.instrErrMsg) := by
  refine ⟨?_, rfl, rfl, ?_⟩
  · cases v with
    | str t => exact absurd rfl (hv t)
    | num n => rfl
    | nan => rfl
    | undefined => rfl
  · have hall : Robot.testARL s = false := by
      have hmem : Robot.jsToUpper c ∈ s.toList.map Robot.jsToUpper :=
        List.mem_map_of_mem Robot.jsToUpper hc
      unfold Robot.testARL
      dsimp only
      rw [Bool.and_eq_false_iff]
      right
      rw [← Bool.not_eq_true, List.all_eq_true]
      intro hforall
      have := hforall (Robot.jsToUpper c) hmem
      simp only [Bool.or_eq_true, decide_eq_true_eq] at this
      exact hbad (or_assoc.mp this)
    unfold Robot.instructions
    dsimp only
    rw [hall]
    rfl

theorem C7_decode_rejects_witness :
    (∀ t, JSVal.num 0 ≠ JSVal.str t) ∧
    ('X' ∈ "XYZ".toList) ∧
    ¬(Robot.jsToUpper 'X' = 'A' ∨ Robot.jsToUpper 'X' = 'R' ∨ Robot.jsToUpper 'X' = 'L') ∧
    Robot.instructions (.num 0) = .error (.invalidInput Robot.instrErrMsg) ∧
    Robot.instructions (.str "XYZ") = .error (.invalidInput Robot.instrErrMsg) :=
  ⟨fun t h => JSVal.noConfusion h, by decide, by decide,
    (C7_decode_rejects (.num 0) "XYZ" 'X' (fun t h => JSVal.noConfusion h) (by decide)
      (by decide)).1,
    (C7_decode_rejects (.num 0) "XYZ" 'X' (fun t h => JSVal.noConfusion h) (by decide)
      (by decide)).2.2.1⟩

/-- An element read out of the direction table is a direction. -/
lemma mem_directions_of_getElem {n : Nat} {d : String}
    (h : Robot.directions[n]? = some d) : d ∈ Robot.directions := by
  rcases n with _ | _ | _ | _ | n <;> simp_all [Robot.directions]

/-- `orient` keeps the orientation valid: it either rejects (state
untouched) or stores a member of the direction table. -/
lemma orient_valid (s : RobotState) (v : JSVal) (h : orientedValid s = true) :
    orientedValid (Robot.orient s v).2 = true := by
  cases v <;> unfold Robot.orient <;> try exact h
  dsimp only
  split
  · rename_i hc
    simpa [orientedValid] using hc
  · exact h

/-- `#turn` keeps the orientation valid: the re-oriented value is read out
of the direction table, and every failure path leaves the state untouched. -/
lemma turn_valid (s : RobotState) (v : JSVal) (h : orientedValid s = true) :
    orientedValid (Robot.turn s v).2 = true := by
  unfold Robot.turn
  split
  · split <;> (dsimp only; split)
    · rename_i heq
      have hm := mem_directions_of_getElem heq
      simp [Robot.orient, orientedValid, hm]
    · exact orient_valid s .undefined h
    · rename_i heq
      have hm := mem_directions_of_getElem heq
      simp [Robot.orient, orientedValid, hm]
    · exact orient_valid s .undefined h
  · exact h

/-- `at` never touches `this.orientation`. -/
lemma atCoords_orientation (s : RobotState) (x y : JSVal) :
    (Robot.atCoords s x y).2.orientation = s.orientation := by
  unfold Robot.atCoords
  split
  · rfl
  · split <;> rfl

/-- `advance` never touches `this.orientation`. -/
lemma advance_orientation (s : RobotState) :
    (Robot.advance s).2.orientation = s.orientation := by
  unfold Robot.advance
  split <;> first | rfl | (split <;> rfl)

/-- Validity of the orientation only depends on the orientation field. -/
lemma orientedValid_of_eq {s t : RobotState} (h : t.orientation = s.orientation)
    (hs : orientedValid s = true) : orientedValid t = true := by
  unfold orientedValid at *
  rw [h]
  exact hs

/-- One `forEach` dispatch step keeps the orientation valid. -/
lemma runCmd_valid (s : RobotState) (c : Option String) (h : orientedValid s = true) :
    orientedValid (Robot.runCmd s c).2 = true := by
  unfold Robot.runCmd
  split
  · exact orientedValid_of_eq (advance_orientation s) h
  · exact turn_valid s _ h
  · exact turn_valid s _ h
  · exact h

/-- The whole `forEach` loop keeps the orientation valid, mid-loop aborts
included. -/
lemma runCmds_valid (cs : List (Option String)) (s : RobotState)
    (h : orientedValid s = true) : orientedValid (Robot.runCmds s cs).2 = true := by
  induction cs generalizing s with
  | nil => exact h
  | cons c cs ih =>
    unfold Robot.runCmds
    dsimp only
    split
    · exact runCmd_valid s c h
    · exact ih _ (runCmd_valid s c h)

/-- `place` keeps the orientation valid on every path. -/
lemma place_valid (s : RobotState) (arg : PlaceArg) (h : orientedValid s = true) :
    orientedValid (Robot.place s arg).2 = true := by
  cases arg with
  | nonObj => exact h
  | obj entries =>
    unfold Robot.place
    dsimp only
    split
    · exact h
    · split
      · exact orientedValid_of_eq (atCoords_orientation s _ _) h
      · exact orient_valid _ _ (orientedValid_of_eq (atCoords_orientation s _ _) h)

/-- C8: once the orientation is one of the four names, every operation —
`orient`, `turnLeft`, `turnRight`, `advance`, `place`, `evaluate` — leaves
it one of the four names, whether the call returns or throws. -/
theorem C8_orientation_invariant (s : RobotState) (v cmd : JSVal) (arg : PlaceArg)
    (h : orientedValid s = true) :
    orientedValid (Robot.orient s v).2 = true ∧
    orientedValid (Robot.turnLeft s).2 = true ∧
    orientedValid (Robot.turnRight s).2 = true ∧
    orientedValid (Robot.advance s).2 = true ∧
    orientedValid (Robot.place s arg).2 = true ∧
    orientedValid (Robot.evaluate s cmd).2 = true := by
  refine ⟨orient_valid s v h, turn_valid s _ h, turn_valid s _ h,
    orientedValid_of_eq (advance_orientation s) h, place_valid s arg h, ?_⟩
  unfold Robot.evaluate
  split
  · exact h
  · exact runCmds_valid _ s h

theorem C8_orientation_invariant_witness :
    orientedValid ⟨some "south", some (0, 0)⟩ = true ∧
    (orientedValid (Robot.orient ⟨some "south", some (0, 0)⟩ (.str "up")).2 = true ∧
     orientedValid (Robot.turnLeft ⟨some "south", some (0, 0)⟩).2 = true ∧
     orientedValid (Robot.turnRight ⟨some "south", some (0, 0)⟩).2 = true ∧
     orientedValid (Robot.advance ⟨some "south", some (0, 0)⟩).2 = true ∧
     orientedValid (Robot.place ⟨some "south", some (0, 0)⟩ .nonObj).2 = true ∧
     orientedValid (Robot.evaluate ⟨some "south", some (0, 0)⟩ (.str "laar")).2 = true) :=
  ⟨by decide,
    C8_orientation_invariant ⟨some "south", some (0, 0)⟩ (.str "up") (.str "laar") .nonObj
      (by decide)⟩

/-- `orient` only ever throws `InvalidInputError`. -/
lemma orient_errKind (s : RobotState) (v : JSVal) :
    allInvalidInput (Robot.orient s v).1 = true := by
  cases v <;> unfold Robot.orient <;> try rfl
  dsimp only
  split <;> rfl

/-- `at` only ever throws `InvalidInputError`. -/
lemma atCoords_errKind (s : RobotState) (x y : JSVal) :
    allInvalidInput (Robot.atCoords s x y).1 = true := by
  unfold Robot.atCoords
  split
  · rfl
  · split <;> rfl

/-- `#turn` only ever throws `InvalidInputError`. -/
lemma turn_errKind (s : RobotState) (v : JSVal) :
    allInvalidInput (Robot.turn s v).1 = true := by
  unfold Robot.turn
  split
  · split <;> (dsimp only; split <;> apply orient_errKind)
  · rfl

/-- C4 counterexample: `place` with a non-record argument throws a plain
`Error` ("Invalid placement data type"), which is not of the
`InvalidInputError` kind. -/
theorem C4_counterexample :
    (Robot.place ⟨none, none⟩ PlaceArg.nonObj).1 =
      some (.genericError "Invalid placement data type") ∧
    Err.isInvalidInput (Err.genericError "Invalid placement data type") = false := by
  decide

/-- C4 amended: every validation failure of `orient`, `at`, `#turn` (hence
the turn operations), `decode`, and of `place` called on a non-empty record
is `InvalidInput`; but `place` on a non-record argument or an empty record
throws a plain `Error`, not `InvalidInput`. -/
theorem C4_error_kinds (s : RobotState) (v x y cmd : JSVal)
    (entries : List (String × JSVal)) (hne : entries ≠ []) :
    allInvalidInput (Robot.orient s v).1 = true ∧
    allInvalidInput (Robot.atCoords s x y).1 = true ∧
    allInvalidInput (Robot.turn s v).1 = true ∧
    exceptInvalid (Robot.instructions cmd) = true ∧
    allInvalidInput (Robot.place s (.obj entries)).1 = true ∧
    (Robot.place s .nonObj).1 = some (.genericError "Invalid placement data type") ∧
    (Robot.place s (.obj [])).1 = some (.genericError "Placement data must not be empty") := by
  refine ⟨orient_errKind s v, atCoords_errKind s x y, turn_errKind s v, ?_, ?_, rfl, rfl⟩
  · cases cmd <;> unfold Robot.instructions <;> try rfl
    dsimp only
    split <;> rfl
  · unfold Robot.place
    dsimp only
    split
    · rename_i hlen
      exact absurd (List.length_eq_zero.mp hlen) hne
    · split
      · rename_i e heq
        have hat := atCoords_errKind s (fieldOf entries "x") (fieldOf entries "y")
        rw [heq] at hat
        exact hat
      · apply orient_errKind

theorem C4_error_kinds_witness :
    ([("x", JSVal.num 0)] : List (String × JSVal)) ≠ [] ∧
    (allInvalidInput (Robot.orient ⟨none, none⟩ (.str "up")).1 = true ∧
     allInvalidInput (Robot.atCoords ⟨none, none⟩ .undefined .nan).1 = true ∧
     allInvalidInput (Robot.turn ⟨none, none⟩ (.str "up")).1 = true ∧
     exceptInvalid (Robot.instructions (.str "up")) = true ∧
     allInvalidInput (Robot.place ⟨none, none⟩ (.obj [("x", JSVal.num 0)])).1 = true ∧
     (Robot.place ⟨none, none⟩ .nonObj).1 =
       some (.genericError "Invalid placement data type") ∧
     (Robot.place ⟨none, none⟩ (.obj [])).1 =
       some (.genericError "Placement data must not be empty")) :=
  ⟨by decide,
    C4_error_kinds ⟨none, none⟩ (.str "up") .undefined .nan (.str "up") [("x", JSVal.num 0)]
      (by decide)⟩

